import Mathlib

/-!
Shallow embedding of the Open3D core fragment: the dtype registry
(`ObjDtype`, `Dtype`, `DtypeUtil`) and the CPU matrix-multiply dispatcher
(`MatmulCPU`), together with theorems settling the specification claims.

Conventions:
* `utility::LogError` is a fatal diagnostic: per the specification it
  terminates the current operation rather than returning control, so every
  function that may call it is embedded as `Except String α`, the error
  carrying the formatted message.
* Raw memory is a `List Nat` of bytes; the process heap is a `Store`
  (list of buffers), and a tensor refers to its buffer by index.
* The external BLAS routine `cblas_sgemm` is not computed; each invocation
  is recorded as a `CblasSgemmCall` value and its effect on the output
  buffer is an oracle parameter.
-/

namespace Open3D

/-- The runtime dtype enum of the source (`enum class Dtype`). -/
inductive Dtype where
  | Undefined
  | Float32
  | Float64
  | Int32
  | Int64
  | UInt8
  | UInt16
  | Bool
deriving DecidableEq

/-- `ObjDtype::DtypeCode` from the source. -/
inductive DtypeCode where
  | Undefined
  | Bool
  | Int
  | UInt
  | Float
  | Object
deriving DecidableEq

/-- The `ObjDtype` class: dtype code, byte size and human-readable name. -/
structure ObjDtype where
  dtype_code : DtypeCode
  byte_size : Int
  name : String
deriving DecidableEq

/-- The `static const ObjDtype` well-known instances, as defined in
`Dtype.cpp`: each is constructed from a dtype code and a byte size only —
the constructor's name parameter is not passed, so it is left at its
default, the empty string. `Undefined` is constructed with byte size 1. -/
def ObjDtype.Undefined : ObjDtype := ⟨DtypeCode.Undefined, 1, ""⟩

/-- See `ObjDtype.Undefined`: Dtype.cpp constant, code Float, 4 bytes. -/
def ObjDtype.Float32 : ObjDtype := ⟨DtypeCode.Float, 4, ""⟩

/-- See `ObjDtype.Undefined`: Dtype.cpp constant, code Float, 8 bytes. -/
def ObjDtype.Float64 : ObjDtype := ⟨DtypeCode.Float, 8, ""⟩

/-- See `ObjDtype.Undefined`: Dtype.cpp constant, code Int, 4 bytes. -/
def ObjDtype.Int32 : ObjDtype := ⟨DtypeCode.Int, 4, ""⟩

/-- See `ObjDtype.Undefined`: Dtype.cpp constant, code Int, 8 bytes. -/
def ObjDtype.Int64 : ObjDtype := ⟨DtypeCode.Int, 8, ""⟩

/-- See `ObjDtype.Undefined`: Dtype.cpp constant, code UInt, 1 byte. -/
def ObjDtype.UInt8 : ObjDtype := ⟨DtypeCode.UInt, 1, ""⟩

/-- See `ObjDtype.Undefined`: Dtype.cpp constant, code UInt, 2 bytes. -/
def ObjDtype.UInt16 : ObjDtype := ⟨DtypeCode.UInt, 2, ""⟩

/-- See `ObjDtype.Undefined`: Dtype.cpp constant, code Bool, 1 byte. -/
def ObjDtype.Bool : ObjDtype := ⟨DtypeCode.Bool, 1, ""⟩

/-- The C++ primitive types relevant to the source: the seven that have a
`FromType` specialization, plus representative fixed-width primitive types
that have none and therefore fall through to the primary template. -/
inductive CppType where
  | float
  | double
  | int32_t
  | int64_t
  | uint8_t
  | uint16_t
  | bool
  | int8_t
  | int16_t
  | uint32_t
  | uint64_t
deriving DecidableEq

/-- Platform byte sizes of the primitive types, as pinned by the
`static_assert` lines of the source for the supported seven, and by the
fixed-width type definitions for the rest. -/
def CppType.sizeofBytes : CppType → Nat
  | .float => 4
  | .double => 8
  | .int32_t => 4
  | .int64_t => 8
  | .uint8_t => 1
  | .uint16_t => 2
  | .bool => 1
  | .int8_t => 1
  | .int16_t => 2
  | .uint32_t => 4
  | .uint64_t => 8

/-- Whether the source provides a `FromType` specialization for the type
(the same seven types for `ObjDtype::FromType` and `DtypeUtil::FromType`). -/
def CppType.hasFromTypeSpecialization : CppType → Bool
  | .float => true
  | .double => true
  | .int32_t => true
  | .int64_t => true
  | .uint8_t => true
  | .uint16_t => true
  | .bool => true
  | _ => false

/-- `ObjDtype::FromType<T>()`: the seven specializations return the
well-known instances; any other type instantiates the primary template,
which calls `utility::LogError("Unsupported data type")` (fatal, so the
trailing `return ObjDtype::Undefined` is never reached). -/
def ObjDtype.FromType : CppType → Except String ObjDtype
  | .float => .ok ObjDtype.Float32
  | .double => .ok ObjDtype.Float64
  | .int32_t => .ok ObjDtype.Int32
  | .int64_t => .ok ObjDtype.Int64
  | .uint8_t => .ok ObjDtype.UInt8
  | .uint16_t => .ok ObjDtype.UInt16
  | .bool => .ok ObjDtype.Bool
  | _ => .error "Unsupported data type"

/-- `DtypeUtil::ByteSize`: the switch over the dtype; the `default` branch
(reached only by `Undefined` for this closed enum) calls
`utility::LogError("Unsupported data type")`, which is fatal, so the
trailing `return byte_size` (0) is never reached. -/
def DtypeUtil.ByteSize : Dtype → Except String Int
  | .Float32 => .ok 4
  | .Float64 => .ok 8
  | .Int32 => .ok 4
  | .Int64 => .ok 8
  | .UInt8 => .ok 1
  | .UInt16 => .ok 2
  | .Bool => .ok 1
  | .Undefined => .error "Unsupported data type"

/-- `DtypeUtil::FromType<T>()`: the seven specializations; any other type
instantiates the primary template, which calls
`utility::LogError("Unsupported data type")` (fatal, so the trailing
`return Dtype::Undefined` is never reached). -/
def DtypeUtil.FromType : CppType → Except String Dtype
  | .float => .ok Dtype.Float32
  | .double => .ok Dtype.Float64
  | .int32_t => .ok Dtype.Int32
  | .int64_t => .ok Dtype.Int64
  | .uint8_t => .ok Dtype.UInt8
  | .uint16_t => .ok Dtype.UInt16
  | .bool => .ok Dtype.Bool
  | _ => .error "Unsupported data type"

/-- `DtypeUtil::ToString`: the switch over the dtype. Note that the source
handles `Dtype::Undefined` explicitly, returning the string "Undefined";
the `default` branch (LogError) is unreachable for this closed enum. -/
def DtypeUtil.ToString : Dtype → Except String String
  | .Undefined => .ok "Undefined"
  | .Float32 => .ok "Float32"
  | .Float64 => .ok "Float64"
  | .Int32 => .ok "Int32"
  | .Int64 => .ok "Int64"
  | .UInt8 => .ok "UInt8"
  | .UInt16 => .ok "UInt16"
  | .Bool => .ok "Bool"

/-- An opaque device tag (`Tensor::GetDevice()`), e.g. "CPU:0". -/
abbrev Device := String

/-- A raw memory buffer: a list of bytes. -/
abbrev Buffer := List Nat

/-- The heap of allocated buffers; a tensor refers to its buffer by index,
and allocation appends a fresh buffer. -/
abbrev Store := List Buffer

/-- The `Tensor` bookkeeping the dispatcher reads: shape (`SizeVector`,
a vector of `int64_t`), dtype tag, device tag, the buffer behind
`GetDataPtr()`, and whether the view is contiguous. -/
structure Tensor where
  shape : List Int
  dtype : Dtype
  device : Device
  bufferId : Nat
  contiguous : Bool
deriving DecidableEq

/-- Number of elements of a shape: the product of its extents. -/
def numel (shape : List Int) : Int := shape.foldl (· * ·) 1

/-- Modelled from the spec: `Tensor::Zeros` is not among the shown source
files. §4.2 of the specification: the zero-filled factory allocates a buffer
of `byteSize(dtype) * product(shape)` bytes, zero-initialized, with the
given shape, dtype and device; the byte-size lookup fails (fatally) on
`Undefined`, and that failure propagates. -/
def Tensor.Zeros (shape : List Int) (dtype : Dtype) (device : Device)
    (store : Store) : Except String (Store × Tensor) :=
  match DtypeUtil.ByteSize dtype with
  | .error e => .error e
  | .ok bs =>
      .ok (store ++ [List.replicate (bs * numel shape).toNat 0],
           { shape := shape, dtype := dtype, device := device,
             bufferId := store.length, contiguous := true })

/-- Modelled from the spec: `Tensor::Contiguous` is not among the shown
source files. §4.2 of the specification: a no-op aliasing view when the
tensor is already contiguous, otherwise a dense copy into a fresh buffer.
Strides are not modelled, so the densifying copy carries the same bytes. -/
def Tensor.Contiguous (store : Store) (t : Tensor) : Store × Tensor :=
  if t.contiguous then (store, t)
  else (store ++ [store.getD t.bufferId []],
        { t with bufferId := store.length, contiguous := true })

/-- `CBLAS_ORDER` of the BLAS C interface. -/
inductive CBLAS_ORDER where
  | CblasRowMajor
  | CblasColMajor
deriving DecidableEq

/-- `CBLAS_TRANSPOSE` of the BLAS C interface. -/
inductive CBLAS_TRANSPOSE where
  | CblasNoTrans
  | CblasTrans
  | CblasConjTrans
deriving DecidableEq

/-- One invocation of `cblas_sgemm`, the single-precision (32-bit float)
GEMM routine: every argument the call site passes. `alpha` and `beta` are
the constants `1.0f` and `0.0f`, both exactly representable, recorded as
integers. `aData`, `bData`, `cData` are the raw byte contents behind the
three pointers handed over; each pointer is cast to a float pointer at the
call site, with no data conversion, so the routine reads these bytes as
32-bit floats whatever the tensors' declared dtype. -/
structure CblasSgemmCall where
  order : CBLAS_ORDER
  transA : CBLAS_TRANSPOSE
  transB : CBLAS_TRANSPOSE
  m : Int
  n : Int
  k : Int
  alpha : Int
  aData : Buffer
  lda : Int
  bData : Buffer
  ldb : Int
  beta : Int
  cData : Buffer
  ldc : Int
deriving DecidableEq

/-- `MatmulCPU` from the source, embedded with an explicit store and an
oracle `sgemm` giving the bytes the external routine writes through the C
pointer. Returns the list of backend invocations performed (empty when a
shape check fails first) and either the fatal `LogError` message or the
updated store with the result tensor. -/
def MatmulCPU (sgemm : CblasSgemmCall → Buffer) (store : Store)
    (A B : Tensor) : List CblasSgemmCall × Except String (Store × Tensor) :=
  let A_shape := A.shape
  let B_shape := B.shape
  if A_shape.length ≠ 2 then
    ([], .error ("Tensor A must be 2D, but got " ++
                 toString A_shape.length ++ "D"))
  else if B_shape.length ≠ 2 then
    ([], .error ("Tensor B must be 2D, but got " ++
                 toString B_shape.length ++ "D"))
  else if A_shape.getD 1 0 ≠ B_shape.getD 0 0 then
    ([], .error ("Tensor A columns " ++ toString (A_shape.getD 1 0) ++
                 " mismatch with Tensor B rows " ++
                 toString (B_shape.getD 0 0)))
  else
    let m := A_shape.getD 0 0
    let k := A_shape.getD 1 0
    let n := B_shape.getD 1 0
    match Tensor.Zeros [m, n] A.dtype A.device store with
    | .error e => ([], .error e)
    | .ok (store1, C) =>
        let sA := Tensor.Contiguous store1 A
        let sB := Tensor.Contiguous sA.1 B
        let store3 := sB.1
        let A_data := store3.getD sA.2.bufferId []
        let B_data := store3.getD sB.2.bufferId []
        let C_data := store3.getD C.bufferId []
        let call : CblasSgemmCall :=
          { order := CBLAS_ORDER.CblasColMajor,
            transA := CBLAS_TRANSPOSE.CblasNoTrans,
            transB := CBLAS_TRANSPOSE.CblasNoTrans,
            m := m, n := n, k := k,
            alpha := 1,
            aData := A_data, lda := m,
            bData := B_data, ldb := k,
            beta := 0,
            cData := C_data, ldc := m }
        ([call], .ok (store3.set C.bufferId (sgemm call), C))

/-- The store after a dispatcher call: unchanged when the call failed. -/
def resultStore (store : Store)
    (r : List CblasSgemmCall × Except String (Store × Tensor)) : Store :=
  match r.2 with
  | .error _ => store
  | .ok (s, _) => s

/-- A tensor predicate: the tensor written by the dispatcher (if any) was
freshly allocated during the call, i.e. its buffer index lies beyond the
caller's pre-existing store. -/
def resultTensorFresh (store : Store)
    (r : List CblasSgemmCall × Except String (Store × Tensor)) : Prop :=
  match r.2 with
  | .error _ => True
  | .ok (_, C) => store.length ≤ C.bufferId

/-- A trivial backend stub used by concrete witnesses: echoes the output
buffer unchanged. -/
def sgemmStub : CblasSgemmCall → Buffer := fun c => c.cData

/-- Concrete two-buffer store used by witnesses. -/
def storeEx : Store := [List.replicate 48 1, List.replicate 48 2]

/-- Concrete 2x3 Int64 CPU tensor over buffer 0. -/
def tensorA : Tensor :=
  { shape := [2, 3], dtype := Dtype.Int64, device := "CPU:0",
    bufferId := 0, contiguous := true }

/-- Concrete 3x4 Float32 tensor on a different device, over buffer 1. -/
def tensorB : Tensor :=
  { shape := [3, 4], dtype := Dtype.Float32, device := "CPU:1",
    bufferId := 1, contiguous := true }

/-- A rank-1 variant of `tensorA`. -/
def tensorA1D : Tensor := { tensorA with shape := [3] }

/-- A 4x5 variant of `tensorB` (inner dimensions disagree with `tensorA`). -/
def tensorB45 : Tensor := { tensorB with shape := [4, 5] }

theorem byteSize_ok_of_ne_undefined (d : Dtype) (h : d ≠ Dtype.Undefined) :
    ∃ bs : Int, DtypeUtil.ByteSize d = Except.ok bs := by
  cases d
  case Undefined => exact absurd rfl h
  all_goals exact ⟨_, rfl⟩

theorem set_append_length {α : Type} (l t : List α) (v : α) :
    (l ++ t).set l.length v = l ++ t.set 0 v := by
  induction l with
  | nil => rfl
  | cons a l ih => simp [List.set_cons_succ, ih]

theorem take_append_length {α : Type} (l t : List α) :
    (l ++ t).take l.length = l := by
  induction l with
  | nil => rfl
  | cons a l ih => simp [ih]

theorem exists_pair_of_length_two {α : Type} (l : List α) (h : l.length = 2) :
    ∃ a b, l = [a, b] := by
  match l, h with
  | [a, b], _ => exact ⟨a, b, rfl⟩

/-- Claim C1: for operands A of shape (m,k) and B of shape (k,n) with
m,k,n ≥ 1 (and A carrying a defined dtype, as §3 of the specification
requires of every compute operand), MatmulCPU succeeds and returns a tensor
C of shape (m,n) whose dtype and device equal A's. -/
theorem matmul_valid_operands_result (g : CblasSgemmCall → Buffer)
    (store : Store) (A B : Tensor) (m k n : Int)
    (hA : A.shape = [m, k]) (hB : B.shape = [k, n])
    (hm : 1 ≤ m) (hk : 1 ≤ k) (hn : 1 ≤ n)
    (hd : A.dtype ≠ Dtype.Undefined) :
    ∃ calls store2 C,
      MatmulCPU g store A B = (calls, Except.ok (store2, C)) ∧
      C.shape = [m, n] ∧ C.dtype = A.dtype ∧ C.device = A.device := by
  obtain ⟨bs, hbs⟩ := byteSize_ok_of_ne_undefined A.dtype hd
  simp [MatmulCPU, hA, hB, Tensor.Zeros, hbs]
  exact ⟨_, _, _, ⟨rfl, rfl, rfl⟩, rfl, rfl, rfl⟩

/-- Concrete instance of C1 at a 2x3 Int64 by 3x4 pair. -/
theorem matmul_valid_operands_result_witness :
    (tensorA.shape = [2, 3] ∧ tensorB.shape = [3, 4] ∧
     (1 : Int) ≤ 2 ∧ (1 : Int) ≤ 3 ∧ (1 : Int) ≤ 4 ∧
     tensorA.dtype ≠ Dtype.Undefined) ∧
    (∃ calls store2 C,
      MatmulCPU sgemmStub storeEx tensorA tensorB =
        (calls, Except.ok (store2, C)) ∧
      C.shape = [2, 4] ∧ C.dtype = tensorA.dtype ∧
      C.device = tensorA.device) :=
  ⟨⟨rfl, rfl, by decide, by decide, by decide, by decide⟩,
   matmul_valid_operands_result sgemmStub storeEx tensorA tensorB 2 3 4
     rfl rfl (by decide) (by decide) (by decide) (by decide)⟩

/-- Claim C2: when an operand is not rank-2, MatmulCPU fails with the
LogError message reporting that operand's actual rank, and no backend call
is recorded (the failure precedes any compute-backend invocation). -/
theorem matmul_rank_error (g : CblasSgemmCall → Buffer) (store : Store)
    (A B : Tensor) (h : A.shape.length ≠ 2 ∨ B.shape.length ≠ 2) :
    (MatmulCPU g store A B).1 = [] ∧
    ((A.shape.length ≠ 2 ∧
      (MatmulCPU g store A B).2 =
        Except.error ("Tensor A must be 2D, but got " ++
                      toString A.shape.length ++ "D")) ∨
     (A.shape.length = 2 ∧ B.shape.length ≠ 2 ∧
      (MatmulCPU g store A B).2 =
        Except.error ("Tensor B must be 2D, but got " ++
                      toString B.shape.length ++ "D"))) := by
  by_cases hA : A.shape.length = 2
  · rcases h with h | h
    · exact absurd hA h
    · exact ⟨by simp [MatmulCPU, hA, h],
             Or.inr ⟨hA, h, by simp [MatmulCPU, hA, h]⟩⟩
  · exact ⟨by simp [MatmulCPU, hA], Or.inl ⟨hA, by simp [MatmulCPU, hA]⟩⟩

/-- Concrete instance of C2 at a rank-1 operand A of shape (3). -/
theorem matmul_rank_error_witness :
    (tensorA1D.shape.length ≠ 2 ∨ tensorB.shape.length ≠ 2) ∧
    ((MatmulCPU sgemmStub storeEx tensorA1D tensorB).1 = [] ∧
     ((tensorA1D.shape.length ≠ 2 ∧
       (MatmulCPU sgemmStub storeEx tensorA1D tensorB).2 =
         Except.error ("Tensor A must be 2D, but got " ++
                       toString tensorA1D.shape.length ++ "D")) ∨
      (tensorA1D.shape.length = 2 ∧ tensorB.shape.length ≠ 2 ∧
       (MatmulCPU sgemmStub storeEx tensorA1D tensorB).2 =
         Except.error ("Tensor B must be 2D, but got " ++
                       toString tensorB.shape.length ++ "D")))) :=
  ⟨Or.inl (by decide),
   matmul_rank_error sgemmStub storeEx tensorA1D tensorB
     (Or.inl (by decide))⟩

/-- Claim C3: for rank-2 operands whose inner dimensions disagree,
MatmulCPU fails with the LogError message reporting both disagreeing sizes
(A's column count and B's row count), before any backend call. -/
theorem matmul_inner_dim_mismatch (g : CblasSgemmCall → Buffer)
    (store : Store) (A B : Tensor) (a0 a1 b0 b1 : Int)
    (hA : A.shape = [a0, a1]) (hB : B.shape = [b0, b1]) (hk : a1 ≠ b0) :
    (MatmulCPU g store A B).1 = [] ∧
    (MatmulCPU g store A B).2 =
      Except.error ("Tensor A columns " ++ toString a1 ++
                    " mismatch with Tensor B rows " ++ toString b0) := by
  constructor <;> simp [MatmulCPU, hA, hB, hk]

/-- Concrete instance of C3 at shapes (2,3) and (4,5): the message reports
3 and 4 as mismatched. -/
theorem matmul_inner_dim_mismatch_witness :
    (tensorA.shape = [2, 3] ∧ tensorB45.shape = [4, 5] ∧ (3 : Int) ≠ 4) ∧
    ((MatmulCPU sgemmStub storeEx tensorA tensorB45).1 = [] ∧
     (MatmulCPU sgemmStub storeEx tensorA tensorB45).2 =
       Except.error ("Tensor A columns " ++ toString (3 : Int) ++
                     " mismatch with Tensor B rows " ++
                     toString (4 : Int))) :=
  ⟨⟨rfl, rfl, by decide⟩,
   matmul_inner_dim_mismatch sgemmStub storeEx tensorA tensorB45 2 3 4 5
     rfl rfl (by decide)⟩

/-- Claim C4: on the CPU path with valid operands, the single gemm
invocation uses column-major storage order, no-transpose on both operands,
alpha = 1, beta = 0, leading dimensions m for A, k for B and m for C, and
the C buffer handed to the backend is still the zero-filled buffer the
`Zeros` factory allocated (byteSize(dtype) * m * n zero bytes). -/
theorem matmul_gemm_call_arguments (g : CblasSgemmCall → Buffer)
    (store : Store) (A B : Tensor) (m k n : Int)
    (hA : A.shape = [m, k]) (hB : B.shape = [k, n])
    (hd : A.dtype ≠ Dtype.Undefined) :
    ∃ bs c store2 C,
      DtypeUtil.ByteSize A.dtype = Except.ok bs ∧
      MatmulCPU g store A B = ([c], Except.ok (store2, C)) ∧
      c.order = CBLAS_ORDER.CblasColMajor ∧
      c.transA = CBLAS_TRANSPOSE.CblasNoTrans ∧
      c.transB = CBLAS_TRANSPOSE.CblasNoTrans ∧
      c.m = m ∧ c.n = n ∧ c.k = k ∧
      c.alpha = 1 ∧ c.beta = 0 ∧
      c.lda = m ∧ c.ldb = k ∧ c.ldc = m ∧
      c.cData = List.replicate (bs * numel [m, n]).toNat 0 := by
  obtain ⟨bs, hbs⟩ := byteSize_ok_of_ne_undefined A.dtype hd
  refine ⟨bs, ?_⟩
  cases hac : A.contiguous <;> cases hbc : B.contiguous <;>
    simp [MatmulCPU, hA, hB, Tensor.Zeros, hbs, Tensor.Contiguous, hac, hbc,
          List.append_assoc] <;>
    simp [List.getElem_append_right]

/-- Concrete instance of C4 at a 2x3 by 3x4 pair. -/
theorem matmul_gemm_call_arguments_witness :
    (tensorA.shape = [2, 3] ∧ tensorB.shape = [3, 4] ∧
     tensorA.dtype ≠ Dtype.Undefined) ∧
    (∃ bs c store2 C,
      DtypeUtil.ByteSize tensorA.dtype = Except.ok bs ∧
      MatmulCPU sgemmStub storeEx tensorA tensorB =
        ([c], Except.ok (store2, C)) ∧
      c.order = CBLAS_ORDER.CblasColMajor ∧
      c.transA = CBLAS_TRANSPOSE.CblasNoTrans ∧
      c.transB = CBLAS_TRANSPOSE.CblasNoTrans ∧
      c.m = 2 ∧ c.n = 4 ∧ c.k = 3 ∧
      c.alpha = 1 ∧ c.beta = 0 ∧
      c.lda = 2 ∧ c.ldb = 3 ∧ c.ldc = 2 ∧
      c.cData = List.replicate (bs * numel [2, 4]).toNat 0) :=
  ⟨⟨rfl, rfl, by decide⟩,
   matmul_gemm_call_arguments sgemmStub storeEx tensorA tensorB 2 3 4
     rfl rfl (by decide)⟩

/-- Claim C5: each of the seven supported primitive types maps through
FromType to the dtype whose ByteSize is exactly the platform byte size of
that type (4, 8, 4, 8, 1, 2, 1), and the seven ToString labels are pairwise
distinct. -/
theorem dtype_roundtrip_byte_size_distinct_labels :
    (DtypeUtil.FromType CppType.float = Except.ok Dtype.Float32 ∧
     DtypeUtil.ByteSize Dtype.Float32 =
       Except.ok ((CppType.sizeofBytes CppType.float : Nat) : Int) ∧
     DtypeUtil.ToString Dtype.Float32 = Except.ok "Float32") ∧
    (DtypeUtil.FromType CppType.double = Except.ok Dtype.Float64 ∧
     DtypeUtil.ByteSize Dtype.Float64 =
       Except.ok ((CppType.sizeofBytes CppType.double : Nat) : Int) ∧
     DtypeUtil.ToString Dtype.Float64 = Except.ok "Float64") ∧
    (DtypeUtil.FromType CppType.int32_t = Except.ok Dtype.Int32 ∧
     DtypeUtil.ByteSize Dtype.Int32 =
       Except.ok ((CppType.sizeofBytes CppType.int32_t : Nat) : Int) ∧
     DtypeUtil.ToString Dtype.Int32 = Except.ok "Int32") ∧
    (DtypeUtil.FromType CppType.int64_t = Except.ok Dtype.Int64 ∧
     DtypeUtil.ByteSize Dtype.Int64 =
       Except.ok ((CppType.sizeofBytes CppType.int64_t : Nat) : Int) ∧
     DtypeUtil.ToString Dtype.Int64 = Except.ok "Int64") ∧
    (DtypeUtil.FromType CppType.uint8_t = Except.ok Dtype.UInt8 ∧
     DtypeUtil.ByteSize Dtype.UInt8 =
       Except.ok ((CppType.sizeofBytes CppType.uint8_t : Nat) : Int) ∧
     DtypeUtil.ToString Dtype.UInt8 = Except.ok "UInt8") ∧
    (DtypeUtil.FromType CppType.uint16_t = Except.ok Dtype.UInt16 ∧
     DtypeUtil.ByteSize Dtype.UInt16 =
       Except.ok ((CppType.sizeofBytes CppType.uint16_t : Nat) : Int) ∧
     DtypeUtil.ToString Dtype.UInt16 = Except.ok "UInt16") ∧
    (DtypeUtil.FromType CppType.bool = Except.ok Dtype.Bool ∧
     DtypeUtil.ByteSize Dtype.Bool =
       Except.ok ((CppType.sizeofBytes CppType.bool : Nat) : Int) ∧
     DtypeUtil.ToString Dtype.Bool = Except.ok "Bool") ∧
    List.Pairwise (· ≠ ·)
      ["Float32", "Float64", "Int32", "Int64", "UInt8", "UInt16", "Bool"] :=
  ⟨⟨rfl, rfl, rfl⟩, ⟨rfl, rfl, rfl⟩, ⟨rfl, rfl, rfl⟩, ⟨rfl, rfl, rfl⟩,
   ⟨rfl, rfl, rfl⟩, ⟨rfl, rfl, rfl⟩, ⟨rfl, rfl, rfl⟩, by decide⟩

/-- Claim C6: for every primitive type with no FromType specialization,
both DtypeUtil::FromType and ObjDtype::FromType fail with the fatal
"Unsupported data type" diagnostic, so no dtype value (in particular no
default-looking Undefined) reaches the caller. -/
theorem fromType_unsupported_fails (t : CppType)
    (h : CppType.hasFromTypeSpecialization t = false) :
    DtypeUtil.FromType t = Except.error "Unsupported data type" ∧
    ObjDtype.FromType t = Except.error "Unsupported data type" := by
  cases t <;>
    simp_all [CppType.hasFromTypeSpecialization, DtypeUtil.FromType,
              ObjDtype.FromType]

/-- Concrete instance of C6 at the unsupported type int8_t. -/
theorem fromType_unsupported_fails_witness :
    CppType.hasFromTypeSpecialization CppType.int8_t = false ∧
    (DtypeUtil.FromType CppType.int8_t =
       Except.error "Unsupported data type" ∧
     ObjDtype.FromType CppType.int8_t =
       Except.error "Unsupported data type") :=
  ⟨by decide, fromType_unsupported_fails CppType.int8_t (by decide)⟩

/-- Claim C7 counterexample: the claim says ToString fails on the Undefined
dtype, but the source's switch handles `Dtype::Undefined` explicitly and
returns the string "Undefined" without reaching the LogError default. -/
theorem toString_undefined_returns_name :
    DtypeUtil.ToString Dtype.Undefined = Except.ok "Undefined" := rfl

/-- Claim C7 as amended: ByteSize applied to Undefined fails with the
"Unsupported data type" error (its switch has no Undefined case), while
ToString applied to Undefined succeeds with the name "Undefined"; indeed
ToString succeeds on every value of the dtype enum. -/
theorem undefined_byte_size_fails_toString_succeeds :
    DtypeUtil.ByteSize Dtype.Undefined =
      Except.error "Unsupported data type" ∧
    DtypeUtil.ToString Dtype.Undefined = Except.ok "Undefined" ∧
    (∀ d : Dtype, ∃ s, DtypeUtil.ToString d = Except.ok s) := by
  refine ⟨rfl, rfl, ?_⟩
  intro d
  cases d <;> exact ⟨_, rfl⟩

/-- Claim C8: MatmulCPU performs no dtype or device compatibility check
(the source carries only a TODO): rank-2 operands with agreeing inner
dimensions are dispatched to the backend, one gemm call recorded, even
when dtypes or devices differ, with no error raised. -/
theorem matmul_no_dtype_device_check (g : CblasSgemmCall → Buffer)
    (store : Store) (A B : Tensor) (m k n : Int)
    (hA : A.shape = [m, k]) (hB : B.shape = [k, n])
    (hd : A.dtype ≠ Dtype.Undefined)
    (hmm : A.dtype ≠ B.dtype ∨ A.device ≠ B.device) :
    ∃ c store2 C,
      MatmulCPU g store A B = ([c], Except.ok (store2, C)) := by
  obtain ⟨bs, hbs⟩ := byteSize_ok_of_ne_undefined A.dtype hd
  simp [MatmulCPU, hA, hB, Tensor.Zeros, hbs]

/-- Concrete instance of C8: Int64 on CPU:0 times Float32 on CPU:1 is
dispatched without any mismatch error. -/
theorem matmul_no_dtype_device_check_witness :
    (tensorA.shape = [2, 3] ∧ tensorB.shape = [3, 4] ∧
     tensorA.dtype ≠ Dtype.Undefined ∧
     (tensorA.dtype ≠ tensorB.dtype ∨ tensorA.device ≠ tensorB.device)) ∧
    (∃ c store2 C,
      MatmulCPU sgemmStub storeEx tensorA tensorB =
        ([c], Except.ok (store2, C))) :=
  ⟨⟨rfl, rfl, by decide, Or.inl (by decide)⟩,
   matmul_no_dtype_device_check sgemmStub storeEx tensorA tensorB 2 3 4
     rfl rfl (by decide) (Or.inl (by decide))⟩

/-- Claim C9: on every call (success or failure), every buffer that existed
before the call is unchanged in the resulting store — in particular the
operands' buffers are read-only throughout — and the only buffer the
dispatcher writes is the freshly allocated result buffer, whose index lies
beyond the caller's pre-existing store. -/
theorem matmul_writes_only_fresh_buffer (g : CblasSgemmCall → Buffer)
    (store : Store) (A B : Tensor) :
    (resultStore store (MatmulCPU g store A B)).take store.length = store ∧
    resultTensorFresh store (MatmulCPU g store A B) := by
  by_cases h1 : A.shape.length = 2
  case neg =>
    constructor <;> simp [MatmulCPU, resultStore, resultTensorFresh, h1]
  by_cases h2 : B.shape.length = 2
  case neg =>
    constructor <;> simp [MatmulCPU, resultStore, resultTensorFresh, h1, h2]
  obtain ⟨a0, a1, hA2⟩ := exists_pair_of_length_two A.shape h1
  obtain ⟨b0, b1, hB2⟩ := exists_pair_of_length_two B.shape h2
  by_cases h3 : a1 = b0
  case neg =>
    constructor <;>
      simp [MatmulCPU, resultStore, resultTensorFresh, hA2, hB2, h3]
  cases hbs : DtypeUtil.ByteSize A.dtype with
  | error e =>
    constructor <;>
      simp [MatmulCPU, resultStore, resultTensorFresh, hA2, hB2, h3,
            Tensor.Zeros, hbs]
  | ok bs =>
    cases hac : A.contiguous <;> cases hbc : B.contiguous <;>
      constructor <;>
      simp [MatmulCPU, resultStore, resultTensorFresh, hA2, hB2, h3,
            Tensor.Zeros, hbs, Tensor.Contiguous, hac, hbc,
            List.append_assoc, set_append_length, take_append_length]

/-- Claim C10: on the CPU path with valid operands of any dtype (Int64
here under no Float32 restriction), the dispatch invokes the
single-precision routine `cblas_sgemm` — the only backend routine of the
source, whose three pointers are cast to float pointers — handing over the
operands' raw buffer bytes unconverted, and a zero-filled output buffer,
with no error raised. -/
theorem matmul_sgemm_raw_buffers (g : CblasSgemmCall → Buffer)
    (store : Store) (A B : Tensor) (m k n : Int)
    (hA : A.shape = [m, k]) (hB : B.shape = [k, n])
    (hd : A.dtype ≠ Dtype.Undefined)
    (ha : A.bufferId < store.length) (hb : B.bufferId < store.length) :
    ∃ c store2 C,
      MatmulCPU g store A B = ([c], Except.ok (store2, C)) ∧
      c.aData = store.getD A.bufferId [] ∧
      c.bData = store.getD B.bufferId [] ∧
      (∀ x ∈ c.cData, x = 0) := by
  obtain ⟨bs, hbs⟩ := byteSize_ok_of_ne_undefined A.dtype hd
  cases hac : A.contiguous <;> cases hbc : B.contiguous <;>
    simp [MatmulCPU, hA, hB, Tensor.Zeros, hbs, Tensor.Contiguous, hac, hbc,
          List.append_assoc] <;>
    simp [List.getElem_append_right, List.getElem?_append_left, ha, hb,
          List.mem_replicate]

/-- Concrete instance of C10: an Int64 operand's raw bytes are handed to
the single-precision routine unconverted. -/
theorem matmul_sgemm_raw_buffers_witness :
    (tensorA.shape = [2, 3] ∧ tensorB.shape = [3, 4] ∧
     tensorA.dtype ≠ Dtype.Undefined ∧
     tensorA.bufferId < storeEx.length ∧
     tensorB.bufferId < storeEx.length) ∧
    (∃ c store2 C,
      MatmulCPU sgemmStub storeEx tensorA tensorB =
        ([c], Except.ok (store2, C)) ∧
      c.aData = storeEx.getD tensorA.bufferId [] ∧
      c.bData = storeEx.getD tensorB.bufferId [] ∧
      (∀ x ∈ c.cData, x = 0)) :=
  ⟨⟨rfl, rfl, by decide, by decide, by decide⟩,
   matmul_sgemm_raw_buffers sgemmStub storeEx tensorA tensorB 2 3 4
     rfl rfl (by decide) (by decide) (by decide)⟩

end Open3D
